import Mathlib

/-!
Verification of the libpubnub-cpp request-orchestration and subscription
engine against its specification.

The repository ships the public interface header
(src/libpubnub-cpp/pubnub.hpp); the bodies of the engine (result
classification, retry policy, crypto transform, subscribe multiplexer,
context guard) live in the underlying C library which is not part of the
repository sources.  Those missing parts are therefore modelled from the
specification, as shallow executable Lean definitions, and the claims are
settled against this model.
-/

namespace LibPubnub

/-- Modelled from the spec: the closed result-code enumeration of the
missing pubnub.h.  The spec requires at least success, timeout, occupied,
malformed-response, and a family of recoverable network/service error
codes; PNR_STARTED is the code for a request successfully begun in
event-driven mode. -/
inductive pubnub_res where
  | PNR_OK
  | PNR_OCCUPIED
  | PNR_STARTED
  | PNR_IOERR
  | PNR_HTTP_ERROR
  | PNR_FORMAT_ERROR
  | PNR_TIMEOUT
deriving DecidableEq, Repr

open pubnub_res

/-- Bit position of each result code within the retry bitmask
(the header documents the mask as indexed by the PNR_xxx value,
e.g. 1 shifted left by PNR_TIMEOUT). -/
def res_code : pubnub_res → Nat
  | PNR_OK => 0
  | PNR_OCCUPIED => 1
  | PNR_STARTED => 2
  | PNR_IOERR => 3
  | PNR_HTTP_ERROR => 4
  | PNR_FORMAT_ERROR => 5
  | PNR_TIMEOUT => 6

/-- Modelled from the spec: classification of result codes as recoverable
(network failure, timeout, transient service error).  Success, occupied,
started and decode failures are not recoverable; decode failures are
reported as a distinct error with the payload discarded. -/
def recoverable : pubnub_res → Bool
  | PNR_IOERR => true
  | PNR_TIMEOUT => true
  | PNR_HTTP_ERROR => true
  | _ => false

/-- A result code denotes an error when it is neither success nor the
in-progress marker. -/
def is_error (r : pubnub_res) : Bool :=
  !(r = PNR_OK || r = PNR_STARTED)

/-- Modelled from the spec: the retry decision of the missing retry policy
engine.  A result is retried iff it is classified recoverable and its bit
is set in the configured retry mask. -/
def should_retry (r : pubnub_res) (retry_mask : Nat) : Bool :=
  recoverable r && retry_mask.testBit (res_code r)

/-- Outcome of the retry policy engine: either re-issue the same logical
request, or deliver the result code to the completion handler. -/
inductive EngineDecision where
  | retry
  | deliver (r : pubnub_res)
deriving DecidableEq, Repr

/-- Diagnostic line describing an error result. -/
def error_message (r : pubnub_res) : String :=
  "pubnub request failed with result code " ++ toString (res_code r)

/-- Modelled from the spec: one step of the missing retry policy engine.
Returns the retry-or-deliver decision together with the diagnostic lines
emitted to the operator-visible error stream.  A message about the error
is printed whenever the print flag is set, even for errors after which the
engine does not retry. -/
def handle_result (r : pubnub_res) (retry_mask : Nat) (print_flag : Bool) :
    EngineDecision × List String :=
  (if should_retry r retry_mask then EngineDecision.retry else EngineDecision.deliver r,
   if print_flag && is_error r then [error_message r] else [])

/-! ## Crypto layer

Modelled from the spec: the cipher implementation is absent from the
sources; the spec prescribes a symmetric cipher keyed by a user-supplied
secret whose decryption is the exact inverse of encryption and whose
decryption under a wrong or missing key surfaces a distinct failure with
the payload discarded.  Message bodies are the byte sequences of their
JSON serialization. -/

/-- Keystream byte number i derived from the cipher key bytes. -/
def keystream (k : List Nat) (i : Nat) : Nat :=
  (k.getD (i % k.length) 0 + i) % 256

/-- Encrypt the byte list starting at stream position i. -/
def enc_from (k : List Nat) (i : Nat) : List Nat → List Nat
  | [] => []
  | b :: bs => (b + keystream k i) % 256 :: enc_from k (i + 1) bs

/-- Decrypt the byte list starting at stream position i. -/
def dec_from (k : List Nat) (i : Nat) : List Nat → List Nat
  | [] => []
  | b :: bs => (b + (256 - keystream k i)) % 256 :: dec_from k (i + 1) bs

/-- Modelled from the spec: an idealized integrity fingerprint of the
cipher key carried by the ciphertext, standing for the cipher's
key-mismatch detection; it is injective so that decryption under any
distinct key is detected, as the spec requires. -/
def key_tag (k : List Nat) : List Nat := k

/-- An encrypted wire payload: masked body bytes plus the key fingerprint
used to detect decryption under a wrong key. -/
structure CipherText where
  tag : List Nat
  data : List Nat
deriving DecidableEq, Repr

/-- Encrypt a message body under a cipher key. -/
def encrypt (k m : List Nat) : CipherText :=
  { tag := key_tag k, data := enc_from k 0 m }

/-- Decrypt a wire payload under a cipher key; fails (returns none) when
the payload was not produced under this key. -/
def decrypt (k : List Nat) (c : CipherText) : Option (List Nat) :=
  if c.tag = key_tag k then some (dec_from k 0 c.data) else none

/-- Modelled from the spec: decoding of a received encrypted payload by
the subscribe/history receive path.  With no cipher key configured, or on
a key mismatch, the decode failure is reported as the distinct
malformed-response error and the payload is discarded. -/
def decode_received (cipher_key : Option (List Nat)) (c : CipherText) :
    Except pubnub_res (List Nat) :=
  match cipher_key with
  | none => Except.error PNR_FORMAT_ERROR
  | some k =>
    match decrypt k c with
    | some m => Except.ok m
    | none => Except.error PNR_FORMAT_ERROR

/-- A message body is representable when every byte is a byte. -/
def valid_body (m : List Nat) : Prop := ∀ b ∈ m, b < 256

instance (m : List Nat) : Decidable (valid_body m) := by
  unfold valid_body
  infer_instance

/-! ## Requests, context and the single-flight guard -/

/-- The request kinds of the API surface (subscribe and subscribe_multi
share one kind on the wire but are distinguished here to quantify over
every operation). -/
inductive RequestKind where
  | publish_req
  | subscribe_req
  | subscribe_multi_req
  | history_req
  | here_now_req
  | time_req
deriving DecidableEq, Repr

/-- Modelled from the spec: the default timeout the dispatcher substitutes
for the sentinel, per request kind (long polls wait longer). -/
def default_timeout : RequestKind → Nat
  | RequestKind.subscribe_req => 310
  | RequestKind.subscribe_multi_req => 310
  | _ => 30

/-- Modelled from the spec: resolution of the caller-supplied timeout.
The sentinel value -1 means use the library default; any other value is
the wait bound in seconds. -/
def effective_timeout (timeout : Int) (kind : RequestKind) : Nat :=
  if timeout = -1 then default_timeout kind else timeout.toNat

/-- An ephemeral description of one outstanding operation. -/
structure Request where
  kind : RequestKind
  channels : List String
  timeout : Nat
deriving DecidableEq, Repr

/-- Build the dispatcher job for an API call: every operation resolves its
timeout argument the same way. -/
def api_request (kind : RequestKind) (channels : List String) (timeout : Int) : Request :=
  { kind := kind, channels := channels, timeout := effective_timeout timeout kind }

/-- Modelled from the spec: the stateful per-connection context of the
missing pubnub C library: configuration plus the single in-flight request
slot and the per-channel-set timetoken store. -/
structure Context where
  publish_key : String
  subscribe_key : String
  secret_key : Option String
  cipher_key : Option (List Nat)
  origin : String
  uuid : String
  retry_mask : Nat
  error_print : Bool
  timetokens : List (List String × String)
  inflight : Option Request
deriving DecidableEq, Repr

/-- Modelled from the spec: context creation with the compulsory keys; the
retry mask defaults to all recoverable errors, error printing defaults to
on, no timetokens are stored and no request is in flight. -/
def pubnub_init (publish_key subscribe_key uuid : String) : Context :=
  { publish_key := publish_key
    subscribe_key := subscribe_key
    secret_key := none
    cipher_key := none
    origin := "http://pubsub.pubnub.com/"
    uuid := uuid
    retry_mask := 2 ^ 32 - 1
    error_print := true
    timetokens := []
    inflight := none }

/-- Set the optional signing key. -/
def set_secret_key (ctx : Context) (secret_key : String) : Context :=
  { ctx with secret_key := some secret_key }

/-- Set the optional cipher key (as its byte sequence). -/
def set_cipher_key (ctx : Context) (cipher_key : List Nat) : Context :=
  { ctx with cipher_key := some cipher_key }

/-- Set the origin server name. -/
def set_origin (ctx : Context) (origin : String) : Context :=
  { ctx with origin := origin }

/-- Replace the autogenerated UUID. -/
def set_uuid (ctx : Context) (uuid : String) : Context :=
  { ctx with uuid := uuid }

/-- Set the retry policy bitmask and the error print flag. -/
def error_policy (ctx : Context) (retry_mask : Nat) (print_flag : Bool) : Context :=
  { ctx with retry_mask := retry_mask, error_print := print_flag }

/-- Modelled from the spec: the single-flight guard.  Starting a request
on a context that already has one in flight fails fast with the occupied
result and leaves the context untouched; otherwise the request occupies
the slot and the operation is started. -/
def issue (ctx : Context) (req : Request) : pubnub_res × Context :=
  match ctx.inflight with
  | some _ => (PNR_OCCUPIED, ctx)
  | none => (PNR_STARTED, { ctx with inflight := some req })

/-- Publish a message on a channel. -/
def publish (ctx : Context) (channel : String) (_message : List Nat) (timeout : Int) :
    pubnub_res × Context :=
  issue ctx (api_request RequestKind.publish_req [channel] timeout)

/-- Subscribe to a single channel. -/
def subscribe (ctx : Context) (channel : String) (timeout : Int) : pubnub_res × Context :=
  issue ctx (api_request RequestKind.subscribe_req [channel] timeout)

/-- Subscribe to a set of channels. -/
def subscribe_multi (ctx : Context) (channels : List String) (timeout : Int) :
    pubnub_res × Context :=
  issue ctx (api_request RequestKind.subscribe_multi_req channels timeout)

/-- List the last messages of a channel. -/
def history (ctx : Context) (channel : String) (_limit : Nat) (timeout : Int) :
    pubnub_res × Context :=
  issue ctx (api_request RequestKind.history_req [channel] timeout)

/-- List the clients subscribed to a channel. -/
def here_now (ctx : Context) (channel : String) (timeout : Int) : pubnub_res × Context :=
  issue ctx (api_request RequestKind.here_now_req [channel] timeout)

/-- Retrieve the server timestamp. -/
def server_time (ctx : Context) (timeout : Int) : pubnub_res × Context :=
  issue ctx (api_request RequestKind.time_req [] timeout)

/-! ## Subscribe multiplexer -/

/-- Insert a channel name into an already sorted channel list. -/
def insert_sorted (c : String) : List String → List String
  | [] => [c]
  | d :: ds => if c ≤ d then c :: d :: ds else d :: insert_sorted c ds

/-- Sort a channel set into the canonical order used to key the long-poll
request and the timetoken store. -/
def sort_channels : List String → List String
  | [] => []
  | c :: cs => insert_sorted c (sort_channels cs)

/-- Look up the stored timetoken of a (sorted) channel set; none means no
token yet. -/
def lookup_token : List (List String × String) → List String → Option String
  | [], _ => none
  | (k, v) :: rest, cs => if k = cs then some v else lookup_token rest cs

/-- Store the timetoken returned for a (sorted) channel set, replacing any
previous one. -/
def store_token : List (List String × String) → List String → String → List (List String × String)
  | [], cs, tt => [(cs, tt)]
  | (k, v) :: rest, cs, tt =>
    if k = cs then (cs, tt) :: rest else (k, v) :: store_token rest cs tt

/-- The stored timetoken of a context for a channel set. -/
def get_timetoken (ctx : Context) (channels : List String) : Option String :=
  lookup_token ctx.timetokens (sort_channels channels)

/-- The long-poll request: both subscribe operations resolve to this tuple
of subscribe key, sorted channel set, UUID and current timetoken. -/
structure SubRequest where
  subscribe_key : String
  channels : List String
  uuid : String
  timetoken : Option String
deriving DecidableEq, Repr

/-- The long-poll request built by subscribe on a single channel. -/
def subscribe_request (ctx : Context) (channel : String) : SubRequest :=
  { subscribe_key := ctx.subscribe_key
    channels := [channel]
    uuid := ctx.uuid
    timetoken := lookup_token ctx.timetokens [channel] }

/-- The long-poll request built by subscribe_multi on a channel set. -/
def subscribe_multi_request (ctx : Context) (channels : List String) : SubRequest :=
  { subscribe_key := ctx.subscribe_key
    channels := sort_channels channels
    uuid := ctx.uuid
    timetoken := lookup_token ctx.timetokens (sort_channels channels) }

/-- One message delivered by a subscribe response, paired with the channel
it arrived on. -/
structure Message where
  channel : String
  body : List Nat
deriving DecidableEq, Repr

/-- The service response to a long poll: an ordered, possibly empty
message sequence plus the new timetoken. -/
structure SubResponse where
  messages : List Message
  timetoken : String
deriving DecidableEq, Repr

/-- Modelled from the spec: the channel-attribution list handed to the
subscribe callback: one channel-name entry per delivered message in
message order, terminated by one empty marker. -/
def channel_list (messages : List Message) : List String :=
  messages.map (fun m => m.channel) ++ [""]

/-- What the completion handler receives for a subscribe. -/
structure SubDelivery where
  result : pubnub_res
  bodies : List (List Nat)
  channels : List String
deriving DecidableEq, Repr

/-- Modelled from the spec: response handling of the missing multiplexer.
The returned timetoken is stored for the exact (sorted) channel set and
the in-flight slot is released before the delivery is produced. -/
def handle_subscribe_response (ctx : Context) (channels : List String) (resp : SubResponse) :
    Context × SubDelivery :=
  ({ ctx with
      timetokens := store_token ctx.timetokens (sort_channels channels) resp.timetoken
      inflight := none },
   { result := PNR_OK
     bodies := resp.messages.map (fun m => m.body)
     channels := channel_list resp.messages })

/-- A consumer iterating over the channel list until the empty marker. -/
def read_until_marker : List String → List String
  | [] => []
  | c :: cs => if c = "" then [] else c :: read_until_marker cs

/-! ## Wrapper ownership -/

/-- The C++ wrapper object: the wrapped context handle plus the
auto-destroy flag. -/
structure PubNubWrapper where
  p : Context
  p_autodestroy : Bool
deriving DecidableEq, Repr

/-- Wrap an existing pubnub context; the C++ constructor defaults
p_autodestroy to false. -/
def wrap_existing (p : Context) : PubNubWrapper :=
  { p := p, p_autodestroy := false }

/-- Wrap an existing pubnub context with an explicit auto-destroy flag. -/
def wrap_existing_with (p : Context) (p_autodestroy : Bool) : PubNubWrapper :=
  { p := p, p_autodestroy := p_autodestroy }

/-- Modelled from the spec: the wrapper destructor.  It calls pubnub_done
on the wrapped context exactly when p_autodestroy is set; the first
component records whether pubnub_done was called, the second is the
underlying context surviving destruction (none once freed). -/
def destruct (w : PubNubWrapper) : Bool × Option Context :=
  if w.p_autodestroy then (true, none) else (false, some w.p)

/-! ## Helper lemmas -/

/-- Decrypting an encrypted byte list at the same stream position under
the same key recovers the original bytes. -/
theorem dec_enc_from (k : List Nat) :
    ∀ (i : Nat) (m : List Nat), (∀ b ∈ m, b < 256) →
      dec_from k i (enc_from k i m) = m := by
  intro i m
  induction m generalizing i with
  | nil => intro _; rfl
  | cons b bs ih =>
    intro hm
    have hb : b < 256 := hm b (by simp)
    have hks : keystream k i < 256 := by
      unfold keystream
      omega
    have h1 : ((b + keystream k i) % 256 + (256 - keystream k i)) % 256 = b := by
      omega
    simp only [enc_from, dec_from]
    rw [h1, ih (i + 1) (fun x hx => hm x (by simp [hx]))]

/-- Looking up a channel set right after storing its token finds exactly
that token. -/
theorem lookup_store_token (cs : List String) (tt : String) :
    ∀ l : List (List String × String), lookup_token (store_token l cs tt) cs = some tt := by
  intro l
  induction l with
  | nil => simp [store_token, lookup_token]
  | cons kv rest ih =>
    obtain ⟨k, v⟩ := kv
    by_cases h : k = cs
    · simp [store_token, lookup_token, h]
    · simp [store_token, lookup_token, h, ih]

/-- Iterating until the empty marker over a list of non-empty entries
followed by the marker reads exactly the entries. -/
theorem read_until_marker_append (l : List String) (h : ∀ c ∈ l, c ≠ "") :
    read_until_marker (l ++ [""]) = l := by
  induction l with
  | nil => rfl
  | cons c cs ih =>
    have hc : c ≠ "" := h c (by simp)
    simp only [List.cons_append, read_until_marker, if_neg hc]
    exact congrArg (List.cons c) (ih (fun x hx => h x (by simp [hx])))

/-! ## Claim theorems -/

/-- Claim C1: while a request is in flight, every attempt to start a
second operation on the same context fails immediately with the occupied
result and leaves the context (keys, UUID, origin, retry policy, stored
timetokens, in-flight slot) completely unchanged. -/
theorem single_flight_occupied (ctx : Context) (h : ctx.inflight.isSome = true) :
    (∀ req, issue ctx req = (PNR_OCCUPIED, ctx))
    ∧ (∀ ch msg t, publish ctx ch msg t = (PNR_OCCUPIED, ctx))
    ∧ (∀ ch t, subscribe ctx ch t = (PNR_OCCUPIED, ctx))
    ∧ (∀ cs t, subscribe_multi ctx cs t = (PNR_OCCUPIED, ctx))
    ∧ (∀ ch lim t, history ctx ch lim t = (PNR_OCCUPIED, ctx))
    ∧ (∀ ch t, here_now ctx ch t = (PNR_OCCUPIED, ctx))
    ∧ (∀ t, server_time ctx t = (PNR_OCCUPIED, ctx)) := by
  have key : ∀ req, issue ctx req = (PNR_OCCUPIED, ctx) := by
    intro req
    unfold issue
    cases hc : ctx.inflight with
    | none => rw [hc] at h; cases h
    | some r => rfl
  refine ⟨key, ?_, ?_, ?_, ?_, ?_, ?_⟩ <;> intros <;>
    simp only [publish, subscribe, subscribe_multi, history, here_now, server_time, key]

/-- Witness for C1 at a concrete occupied context. -/
theorem single_flight_occupied_witness :
    publish
        { pubnub_init "pk" "sk" "u" with
            inflight := some (api_request RequestKind.time_req [] (-1)) }
        "demo" [1, 2] 5
      = (PNR_OCCUPIED,
          { pubnub_init "pk" "sk" "u" with
              inflight := some (api_request RequestKind.time_req [] (-1)) }) :=
  (single_flight_occupied _ (by rfl)).2.1 "demo" [1, 2] 5

/-- Claim C2: the engine re-issues a request exactly when the result code
is classified recoverable and its bit is set in the retry mask; success
and occupied are never retried and are delivered to the completion
handler; with mask 0 nothing is retried, and any code with a cleared bit
is delivered without re-issue. -/
theorem retry_decision_spec (r : pubnub_res) (m : Nat) (p : Bool) :
    ((handle_result r m p).1 = EngineDecision.retry
        ↔ recoverable r = true ∧ m.testBit (res_code r) = true)
    ∧ (handle_result PNR_OK m p).1 = EngineDecision.deliver PNR_OK
    ∧ (handle_result PNR_OCCUPIED m p).1 = EngineDecision.deliver PNR_OCCUPIED
    ∧ (handle_result r 0 p).1 = EngineDecision.deliver r
    ∧ (m.testBit (res_code r) = false →
        (handle_result r m p).1 = EngineDecision.deliver r) := by
  refine ⟨?_, ?_, ?_, ?_, ?_⟩
  · constructor
    · intro h
      by_cases hs : should_retry r m = true
      · exact (Bool.and_eq_true _ _).mp hs
      · simp [handle_result, hs] at h
    · intro ⟨h1, h2⟩
      simp [handle_result, should_retry, h1, h2]
  · simp [handle_result, should_retry, recoverable]
  · simp [handle_result, should_retry, recoverable]
  · simp [handle_result, should_retry, Nat.zero_testBit]
  · intro h
    simp [handle_result, should_retry, h]

/-- Witness for C2: timeout with its mask bit cleared is delivered. -/
theorem retry_decision_spec_witness :
    Nat.testBit 5 (res_code PNR_TIMEOUT) = false
    ∧ (handle_result PNR_TIMEOUT 5 true).1 = EngineDecision.deliver PNR_TIMEOUT :=
  ⟨by decide, (retry_decision_spec PNR_TIMEOUT 5 true).2.2.2.2 (by decide)⟩

/-- Claim C3: for every representable JSON message body and every
non-empty cipher key, decryption is the exact inverse of encryption. -/
theorem decrypt_encrypt_roundtrip (k m : List Nat) (hk : k ≠ []) (hm : valid_body m) :
    decrypt k (encrypt k m) = some m := by
  have _ := hk
  simp only [decrypt, encrypt, if_pos rfl]
  exact congrArg some (dec_enc_from k 0 m hm)

/-- Witness for C3 at a concrete key and message body. -/
theorem decrypt_encrypt_roundtrip_witness :
    ([107, 49] : List Nat) ≠ []
    ∧ valid_body [123, 34, 116, 34, 58, 34, 104, 105, 34, 125]
    ∧ decrypt [107, 49] (encrypt [107, 49] [123, 34, 116, 34, 58, 34, 104, 105, 34, 125])
        = some [123, 34, 116, 34, 58, 34, 104, 105, 34, 125] :=
  ⟨by decide, by decide, decrypt_encrypt_roundtrip [107, 49] _ (by decide) (by decide)⟩

/-- Claim C4: decrypting an encryption under any different key, or with no
key configured, never returns the message; the receive path reports the
distinct decode-failure error and discards the payload. -/
theorem decrypt_wrong_key_fails (k m : List Nat) (ck : Option (List Nat))
    (h : ck ≠ some k) :
    decode_received ck (encrypt k m) = Except.error PNR_FORMAT_ERROR
    ∧ decode_received ck (encrypt k m) ≠ Except.ok m := by
  have he : decode_received ck (encrypt k m) = Except.error PNR_FORMAT_ERROR := by
    match ck with
    | none => rfl
    | some k2 =>
      have hne : ¬(k = k2) := fun hh => h (by rw [hh])
      simp [decode_received, decrypt, encrypt, key_tag, hne]
  exact ⟨he, by rw [he]; intro hcontra; cases hcontra⟩

/-- Witness for C4 at a concrete pair of distinct keys. -/
theorem decrypt_wrong_key_fails_witness :
    (some [9, 9] : Option (List Nat)) ≠ some [1, 2]
    ∧ decode_received (some [9, 9]) (encrypt [1, 2] [123, 34])
        = Except.error PNR_FORMAT_ERROR :=
  ⟨by decide, (decrypt_wrong_key_fails [1, 2] [123, 34] (some [9, 9]) (by decide)).1⟩

/-- Claim C5: the delivered channel-attribution list has exactly one entry
per delivered message, in message order, followed by one terminating empty
marker, and a consumer iterating until the marker reads exactly the
per-message attributions. -/
theorem channel_list_spec (ctx : Context) (channels : List String) (resp : SubResponse)
    (h : ∀ msg ∈ resp.messages, msg.channel ≠ "") :
    ((handle_subscribe_response ctx channels resp).2.channels.length
        = resp.messages.length + 1)
    ∧ (handle_subscribe_response ctx channels resp).2.channels
        = resp.messages.map (fun m => m.channel) ++ [""]
    ∧ read_until_marker (handle_subscribe_response ctx channels resp).2.channels
        = resp.messages.map (fun m => m.channel) := by
  refine ⟨by simp [handle_subscribe_response, channel_list], rfl, ?_⟩
  have hne : ∀ c ∈ resp.messages.map (fun m => m.channel), c ≠ "" := by
    intro c hc
    obtain ⟨msg, hmsg, hrfl⟩ := List.mem_map.mp hc
    rw [← hrfl]
    exact h msg hmsg
  exact read_until_marker_append (resp.messages.map (fun m => m.channel)) hne

/-- Witness for C5 at a concrete two-message response. -/
theorem channel_list_spec_witness :
    read_until_marker
        (handle_subscribe_response (pubnub_init "pk" "sk" "u") ["a", "b"]
          { messages := [{ channel := "a", body := [1] }, { channel := "b", body := [2] }]
            timetoken := "7" }).2.channels
      = ["a", "b"] := by
  have h := channel_list_spec (pubnub_init "pk" "sk" "u") ["a", "b"]
    { messages := [{ channel := "a", body := [1] }, { channel := "b", body := [2] }]
      timetoken := "7" }
    (by decide)
  simpa using h.2.2

/-- Claim C6: a fresh context stores no timetoken for any channel set; on
a subscribe response the multiplexer stores the returned token for that
exact channel set, and the next subscribe request on the same channel set
carries that token verbatim. -/
theorem timetoken_tracking (pk sk uu : String) (ctx : Context)
    (channels : List String) (resp : SubResponse) :
    get_timetoken (pubnub_init pk sk uu) channels = none
    ∧ get_timetoken (handle_subscribe_response ctx channels resp).1 channels
        = some resp.timetoken
    ∧ (subscribe_multi_request (handle_subscribe_response ctx channels resp).1
          channels).timetoken
        = some resp.timetoken := by
  refine ⟨rfl, ?_, ?_⟩
  · exact lookup_store_token (sort_channels channels) resp.timetoken ctx.timetokens
  · exact lookup_store_token (sort_channels channels) resp.timetoken ctx.timetokens

/-- Claim C7: subscribe on one channel and subscribe_multi on the
singleton set of that channel build the identical long-poll request (same
subscribe key, sorted channel set, UUID and current timetoken), and their
timeout resolution agrees, so the two operations are observationally
equivalent on a singleton set. -/
theorem subscribe_singleton_equiv (ctx : Context) (channel : String) (t : Int) :
    subscribe_request ctx channel = subscribe_multi_request ctx [channel]
    ∧ (api_request RequestKind.subscribe_req [channel] t).timeout
        = (api_request RequestKind.subscribe_multi_req [channel] t).timeout := by
  constructor
  · rfl
  · simp only [api_request, effective_timeout, default_timeout]

/-- Claim C8: every API request resolves the sentinel timeout -1 to the
library default for its kind, and resolves any non-sentinel timeout to
that value itself; the sentinel is never used as a literal duration. -/
theorem timeout_sentinel_spec (kind : RequestKind) (channels : List String) (t : Int) :
    ((api_request kind channels (-1)).timeout = default_timeout kind)
    ∧ (t ≠ -1 → (api_request kind channels t).timeout = t.toNat) := by
  constructor
  · simp [api_request, effective_timeout]
  · intro h
    simp [api_request, effective_timeout, h]

/-- Witness for C8 at a concrete non-sentinel timeout. -/
theorem timeout_sentinel_spec_witness :
    ((5 : Int) ≠ -1)
    ∧ (api_request RequestKind.publish_req ["demo"] 5).timeout = (5 : Int).toNat :=
  ⟨by decide, (timeout_sentinel_spec RequestKind.publish_req ["demo"] 5).2 (by decide)⟩

/-- Claim C9: whenever the print flag is set an error result produces a
diagnostic on the operator-visible stream (in particular every non-retried
error does); the emission is independent of the retry mask and hence of
the retry decision and of handler delivery; with the print flag cleared
nothing is emitted. -/
theorem error_print_diagnostics (r : pubnub_res) (m m2 : Nat) (p : Bool) :
    ((p = true ∧ is_error r = true) → (handle_result r m p).2 = [error_message r])
    ∧ (handle_result r m p).2 = (handle_result r m2 p).2
    ∧ (p = false → (handle_result r m p).2 = []) := by
  refine ⟨?_, rfl, ?_⟩
  · rintro ⟨hp, he⟩
    simp [handle_result, hp, he]
  · intro hp
    simp [handle_result, hp]

/-- Witness for C9: a non-retried timeout with the print flag set emits
its diagnostic. -/
theorem error_print_diagnostics_witness :
    (true = true ∧ is_error PNR_TIMEOUT = true)
    ∧ (handle_result PNR_TIMEOUT 0 true).2 = [error_message PNR_TIMEOUT] :=
  ⟨⟨rfl, by decide⟩, (error_print_diagnostics PNR_TIMEOUT 0 0 true).1 ⟨rfl, by decide⟩⟩

/-- Claim C10: the wrapper destructor calls pubnub_done exactly when the
p_autodestroy flag is set, and a wrapper built from an existing context
with the default flag (false) leaves the underlying context intact on
destruction. -/
theorem autodestroy_spec (w : PubNubWrapper) (p : Context) :
    ((destruct w).1 = w.p_autodestroy)
    ∧ (wrap_existing p).p_autodestroy = false
    ∧ destruct (wrap_existing p) = (false, some p) := by
  refine ⟨?_, rfl, rfl⟩
  unfold destruct
  by_cases h : w.p_autodestroy <;> simp [h]

end LibPubnub
